import Mathlib

/-!
Verification of the tool-calling model cost-analysis pipeline
(fetch → normalize → classify → report) described by this repository's
specification.  The repository ships the documentation, data notes and the
static site configuration; the small data-collection and analysis scripts
themselves (the `scripts/` directory the README points at) are not present,
so the pipeline's operations are modelled from the specification's words and
the documented constants (thresholds 150,000 tokens and $2 per million output
tokens, the exact ×1,000,000 unit conversion, the input/output price median).
Prices are modelled as exact rationals (the API quotes decimal-fraction
strings per token; the spec mandates exact conversion with no rounding before
display), context lengths as integers.
-/

/-- Modelled from the spec: a raw catalog entry (`ModelRecord`, §3), as decoded
from the fetched JSON.  The scripts that decode it are missing from the
repository; fields follow §3 and §6.  `none` in a numeric field models a
missing field in the payload. -/
structure ModelRecord where
  id : String
  display_name : String
  vendor : String
  context_length : Option Int
  price_input_per_token : Option ℚ
  price_output_per_token : Option ℚ
  price_cache_read_per_token : Option ℚ
  supported_parameters : List String
deriving DecidableEq

/-- Modelled from the spec: the derived `NormalizedRecord` (§3), with per-token
prices converted to currency per one million tokens and the input/output
price median. -/
structure NormalizedRecord where
  id : String
  display_name : String
  vendor : String
  context_length : Int
  price_input_per_million : ℚ
  price_output_per_million : ℚ
  price_median : ℚ
deriving DecidableEq

/-- Modelled from the spec: the error taxonomy of §7 for a single malformed
record. -/
inductive ValidationError where
  | missingContext
  | nonPositiveContext
  | missingPrice
  | negativePrice
deriving DecidableEq

/-- Modelled from the spec: fetch-level failures (§4.1, §7): network failure,
non-2xx status, malformed payload. -/
inductive FetchError where
  | network
  | status (code : Nat)
  | malformedPayload
deriving DecidableEq

/-- Modelled from the spec: invalid threshold configuration (§7): non-numeric
or negative. -/
inductive ConfigError where
  | nonNumeric
  | negativeThreshold
deriving DecidableEq

/-- Modelled from the spec: the two user-overridable cut points of §4.3. -/
structure ThresholdConfig where
  context_threshold : Int
  price_threshold : ℚ
deriving DecidableEq

/-- Modelled from the spec: the context axis of the quadrant classification. -/
inductive ContextAxis where
  | low
  | high
deriving DecidableEq

/-- Modelled from the spec: the price axis of the quadrant classification. -/
inductive PriceAxis where
  | low
  | high
deriving DecidableEq

/-- Modelled from the spec: the closed `QuadrantLabel` enumeration (§3). -/
inductive QuadrantLabel where
  | lowCostHighContext
  | lowCostLowContext
  | highCostHighContext
  | highCostLowContext
deriving DecidableEq

/-- Modelled from the spec: context axis rule of §4.3 — "high" iff
`context_length > context_threshold` (strict, ties resolve to "low"). -/
def contextAxisOf (context_length context_threshold : Int) : ContextAxis :=
  if context_length > context_threshold then ContextAxis.high else ContextAxis.low

/-- Modelled from the spec: price axis rule of §4.3 — "low" iff
`price_output_per_million < price_threshold` (strict, ties resolve to
"high"). -/
def priceAxisOf (price_output_per_million price_threshold : ℚ) : PriceAxis :=
  if price_output_per_million < price_threshold then PriceAxis.low else PriceAxis.high

/-- Modelled from the spec: the combined label is the Cartesian product of the
two axis results (§4.3). -/
def combineAxes (p : PriceAxis) (c : ContextAxis) : QuadrantLabel :=
  match p, c with
  | PriceAxis.low, ContextAxis.high => QuadrantLabel.lowCostHighContext
  | PriceAxis.low, ContextAxis.low => QuadrantLabel.lowCostLowContext
  | PriceAxis.high, ContextAxis.high => QuadrantLabel.highCostHighContext
  | PriceAxis.high, ContextAxis.low => QuadrantLabel.highCostLowContext

/-- Price axis of a combined quadrant label. -/
def quadrantPriceAxis : QuadrantLabel → PriceAxis
  | QuadrantLabel.lowCostHighContext => PriceAxis.low
  | QuadrantLabel.lowCostLowContext => PriceAxis.low
  | QuadrantLabel.highCostHighContext => PriceAxis.high
  | QuadrantLabel.highCostLowContext => PriceAxis.high

/-- Context axis of a combined quadrant label. -/
def quadrantContextAxis : QuadrantLabel → ContextAxis
  | QuadrantLabel.lowCostHighContext => ContextAxis.high
  | QuadrantLabel.lowCostLowContext => ContextAxis.low
  | QuadrantLabel.highCostHighContext => ContextAxis.high
  | QuadrantLabel.highCostLowContext => ContextAxis.low

/-- Modelled from the spec: the classifier (§4.3) — given a `NormalizedRecord`
and a `ThresholdConfig`, apply the two threshold tests independently and
combine. -/
def classify (r : NormalizedRecord) (cfg : ThresholdConfig) : QuadrantLabel :=
  combineAxes (priceAxisOf r.price_output_per_million cfg.price_threshold)
    (contextAxisOf r.context_length cfg.context_threshold)

/-- Modelled from the spec: the documented default thresholds (§6):
`context_threshold` = 150,000 tokens, `price_threshold` = $2 per million
output tokens. -/
def defaultThresholds : ThresholdConfig :=
  { context_threshold := 150000, price_threshold := 2 }

/-- Tagging a record with its quadrant label at report time (§3: the label is
computed, not stored on the record). -/
def tagQuadrant (r : NormalizedRecord) (cfg : ThresholdConfig) :
    NormalizedRecord × QuadrantLabel :=
  (r, classify r cfg)

/-- Modelled from the spec: the median of a list of prices (§3): middle element
of the sorted values, arithmetic mean of the two middle elements when the
count is even — in particular the mean of the two when exactly two values. -/
def median (xs : List ℚ) : ℚ :=
  let s := List.insertionSort (fun a b : ℚ => a ≤ b) xs
  let n := s.length
  if n = 0 then 0
  else if n % 2 = 1 then s.getD (n / 2) 0
  else (s.getD (n / 2 - 1) 0 + s.getD (n / 2) 0) / 2

/-- Modelled from the spec: outcome of the normalizer on one fetched record
(§4.2): a `NormalizedRecord`, a silent filter of a record whose capability
list lacks tool invocation, or a `ValidationError`. -/
inductive NormalizeResult where
  | ok (n : NormalizedRecord)
  | filteredNoTools
  | invalid (e : ValidationError)
deriving DecidableEq

/-- Modelled from the spec: the per-record normalizer (§4.2).  It filters out
any record whose `supported_parameters` list does not include `"tools"`
(defense in depth, not relying on the fetch step), fails with a
`ValidationError` when `context_length` is missing or non-positive or a
pricing field is missing or negative, and otherwise converts per-token prices
to per-million prices by exact multiplication by 1,000,000 and computes the
input/output price median. -/
def normalizeRecord (m : ModelRecord) : NormalizeResult :=
  if "tools" ∈ m.supported_parameters then
    match m.context_length with
    | none => NormalizeResult.invalid ValidationError.missingContext
    | some c =>
      if c ≤ 0 then NormalizeResult.invalid ValidationError.nonPositiveContext
      else
        match m.price_input_per_token, m.price_output_per_token with
        | none, _ => NormalizeResult.invalid ValidationError.missingPrice
        | some _, none => NormalizeResult.invalid ValidationError.missingPrice
        | some pin, some pout =>
          if pin < 0 ∨ pout < 0 then
            NormalizeResult.invalid ValidationError.negativePrice
          else
            NormalizeResult.ok
              { id := m.id
                display_name := m.display_name
                vendor := m.vendor
                context_length := c
                price_input_per_million := pin * 1000000
                price_output_per_million := pout * 1000000
                price_median := median [pin * 1000000, pout * 1000000] }
  else NormalizeResult.filteredNoTools

/-- Modelled from the spec: the output of the normalizer stage over the whole
fetched collection (§4.2, §7): the normalized set, and the per-record
validation skips recorded for the run summary. -/
structure NormalizeOutput where
  normalized : List NormalizedRecord
  skipped : List (String × ValidationError)
deriving DecidableEq

/-- Modelled from the spec: the normalizer stage over the fetched collection:
each record independently normalized, filtered, or skipped with its
`ValidationError` recorded; a failure on one record never aborts the run. -/
def normalizeAll (rs : List ModelRecord) : NormalizeOutput :=
  match rs with
  | [] => { normalized := [], skipped := [] }
  | r :: rest =>
    let out := normalizeAll rest
    match normalizeRecord r with
    | NormalizeResult.ok n =>
      { normalized := n :: out.normalized, skipped := out.skipped }
    | NormalizeResult.filteredNoTools => out
    | NormalizeResult.invalid e =>
      { normalized := out.normalized, skipped := (r.id, e) :: out.skipped }

/-- Modelled from the spec: the raw, user-supplied threshold configuration
before validation (§6, §7).  `none` models a non-numeric input value. -/
structure RawConfig where
  context_threshold : Option Int
  price_threshold : Option ℚ
deriving DecidableEq

/-- Modelled from the spec: configuration validation (§7): a non-numeric or
negative threshold is a fatal `ConfigError`. -/
def parseConfig (c : RawConfig) : Except ConfigError ThresholdConfig :=
  match c.context_threshold, c.price_threshold with
  | none, _ => Except.error ConfigError.nonNumeric
  | some _, none => Except.error ConfigError.nonNumeric
  | some ct, some pt =>
    if ct < 0 ∨ pt < 0 then Except.error ConfigError.negativeThreshold
    else Except.ok { context_threshold := ct, price_threshold := pt }

/-- Modelled from the spec: a fatal, run-aborting error (§7): a fetch-level
failure or an invalid configuration. -/
inductive RunError where
  | fetch (e : FetchError)
  | config (e : ConfigError)
deriving DecidableEq

/-- Modelled from the spec: the successful result of a run (§2, §7): the
classified set plus the summary data (fetched count and recorded skips). -/
structure RunReport where
  fetched_count : Nat
  classified : List (NormalizedRecord × QuadrantLabel)
  skipped : List (String × ValidationError)
deriving DecidableEq

/-- Modelled from the spec: the whole pipeline after the network call (§2,
§7): a `FetchError` aborts the run with no partial result; the configuration
is validated before classification begins and a `ConfigError` is fatal;
validation errors are isolated per record. -/
def runPipeline (fetched : Except FetchError (List ModelRecord))
    (cfg : RawConfig) : Except RunError RunReport :=
  match fetched with
  | Except.error e => Except.error (RunError.fetch e)
  | Except.ok records =>
    match parseConfig cfg with
    | Except.error e => Except.error (RunError.config e)
    | Except.ok tc =>
      let out := normalizeAll records
      Except.ok
        { fetched_count := records.length
          classified := out.normalized.map (fun r => tagQuadrant r tc)
          skipped := out.skipped }

/-- Ordering of normalized records by `price_median`, used by the reporter's
grouped tabular listing (§4.4). -/
def medLE (a b : NormalizedRecord) : Prop :=
  a.price_median ≤ b.price_median

instance : DecidableRel medLE :=
  fun a b => inferInstanceAs (Decidable (a.price_median ≤ b.price_median))

instance : IsTotal NormalizedRecord medLE :=
  ⟨fun a b => le_total a.price_median b.price_median⟩

instance : IsTrans NormalizedRecord medLE :=
  ⟨fun _ _ _ h h2 => le_trans h h2⟩

/-- The fixed presentation order of the four quadrant groups in the report. -/
def quadrantOrder : List QuadrantLabel :=
  [QuadrantLabel.lowCostHighContext, QuadrantLabel.lowCostLowContext,
   QuadrantLabel.highCostHighContext, QuadrantLabel.highCostLowContext]

/-- Modelled from the spec: the reporter's grouped tabular listing (§4.4):
records grouped by quadrant, each group sorted by `price_median` ascending. -/
def reportTable (rs : List (NormalizedRecord × QuadrantLabel)) :
    List (QuadrantLabel × List NormalizedRecord) :=
  quadrantOrder.map (fun q =>
    (q, List.insertionSort medLE ((rs.filter (fun p => p.2 = q)).map Prod.fst)))

/-! ## Helper lemmas -/

theorem median_pair (a b : ℚ) : median [a, b] = (a + b) / 2 := by
  by_cases h : a ≤ b
  · simp [median, List.insertionSort, List.orderedInsert, h]
  · simp [median, List.insertionSort, List.orderedInsert, h, add_comm]

theorem normalizeRecord_ok_elim {m : ModelRecord} {n : NormalizedRecord}
    (h : normalizeRecord m = NormalizeResult.ok n) :
    ∃ c pin pout,
      m.context_length = some c ∧ 0 < c ∧
      m.price_input_per_token = some pin ∧
      m.price_output_per_token = some pout ∧
      0 ≤ pin ∧ 0 ≤ pout ∧ "tools" ∈ m.supported_parameters ∧
      n.id = m.id ∧ n.context_length = c ∧
      n.price_input_per_million = pin * 1000000 ∧
      n.price_output_per_million = pout * 1000000 ∧
      n.price_median = median [pin * 1000000, pout * 1000000] := by
  obtain ⟨mid, mdn, mv, mcl, mpin, mpout, mpc, msp⟩ := m
  by_cases ht : "tools" ∈ msp
  · cases mcl with
    | none => simp [normalizeRecord, ht] at h
    | some c =>
      by_cases hcpos : c ≤ 0
      · simp [normalizeRecord, ht, hcpos] at h
      · cases mpin with
        | none => simp [normalizeRecord, ht, hcpos] at h
        | some pin =>
          cases mpout with
          | none => simp [normalizeRecord, ht, hcpos] at h
          | some pout =>
            by_cases hneg : pin < 0 ∨ pout < 0
            · simp [normalizeRecord, ht, hcpos, hneg] at h
            · have hnonneg := hneg
              push_neg at hnonneg
              simp [normalizeRecord, ht, hcpos, hneg] at h
              refine ⟨c, pin, pout, rfl, lt_of_not_le hcpos, rfl, rfl,
                hnonneg.1, hnonneg.2, ht, ?_, ?_, ?_, ?_, ?_⟩ <;>
                simp [← h]
  · simp [normalizeRecord, ht] at h

theorem normalizeRecord_no_tools {m : ModelRecord}
    (h : "tools" ∉ m.supported_parameters) :
    normalizeRecord m = NormalizeResult.filteredNoTools := by
  simp [normalizeRecord, h]

theorem normalizeAll_mem_source (rs : List ModelRecord) (n : NormalizedRecord)
    (h : n ∈ (normalizeAll rs).normalized) :
    ∃ m, m ∈ rs ∧ normalizeRecord m = NormalizeResult.ok n := by
  induction rs with
  | nil => simp [normalizeAll] at h
  | cons r rest ih =>
    cases hr : normalizeRecord r with
    | ok n2 =>
      rw [normalizeAll, hr] at h
      rcases List.mem_cons.mp h with h2 | h2
      · exact ⟨r, List.mem_cons_self r rest, h2 ▸ hr⟩
      · obtain ⟨m, hm, hok⟩ := ih h2
        exact ⟨m, List.mem_cons_of_mem r hm, hok⟩
    | filteredNoTools =>
      rw [normalizeAll, hr] at h
      obtain ⟨m, hm, hok⟩ := ih h
      exact ⟨m, List.mem_cons_of_mem r hm, hok⟩
    | invalid e =>
      rw [normalizeAll, hr] at h
      obtain ⟨m, hm, hok⟩ := ih h
      exact ⟨m, List.mem_cons_of_mem r hm, hok⟩

theorem normalizeAll_invalid_skip {m : ModelRecord} {e : ValidationError}
    (hm : normalizeRecord m = NormalizeResult.invalid e) :
    ∀ l1 l2 : List ModelRecord,
      (normalizeAll (l1 ++ m :: l2)).normalized =
        (normalizeAll (l1 ++ l2)).normalized ∧
      (m.id, e) ∈ (normalizeAll (l1 ++ m :: l2)).skipped := by
  intro l1
  induction l1 with
  | nil =>
    intro l2
    constructor
    · simp only [List.nil_append, normalizeAll, hm]
    · simp only [List.nil_append, normalizeAll, hm]
      exact List.mem_cons_self _ _
  | cons r rest ih =>
    intro l2
    have ihl := ih l2
    cases hr : normalizeRecord r with
    | ok n2 =>
      simp only [List.cons_append, normalizeAll, hr, List.append_eq]
      exact ⟨by rw [ihl.1], ihl.2⟩
    | filteredNoTools =>
      simp only [List.cons_append, normalizeAll, hr, List.append_eq]
      exact ihl
    | invalid e2 =>
      simp only [List.cons_append, normalizeAll, hr, List.append_eq]
      exact ⟨ihl.1, List.mem_cons_of_mem _ ihl.2⟩

/-! ## Sample records used by the concrete checks -/

/-- A well-formed sample catalog entry (tool-calling, positive context,
non-negative prices). -/
def sampleOkModel : ModelRecord :=
  { id := "vendor/sample-model", display_name := "Sample Model", vendor := "vendor",
    context_length := some 200000, price_input_per_token := some 0,
    price_output_per_token := some 0, price_cache_read_per_token := none,
    supported_parameters := ["tools"] }

/-- The normalized form of `sampleOkModel`. -/
def sampleOkNorm : NormalizedRecord :=
  { id := "vendor/sample-model", display_name := "Sample Model", vendor := "vendor",
    context_length := 200000, price_input_per_million := 0,
    price_output_per_million := 0, price_median := 0 }

/-- A record agreeing with `sampleOkNorm` on the classification inputs but
with different identifying fields. -/
def sampleOkNormB : NormalizedRecord :=
  { id := "vendor/sample-model-b", display_name := "Sample Model B", vendor := "vendor",
    context_length := 200000, price_input_per_million := 0,
    price_output_per_million := 0, price_median := 0 }

/-- A normalized record sitting exactly on both thresholds of the default
configuration. -/
def boundaryNorm : NormalizedRecord :=
  { id := "vendor/boundary-model", display_name := "Boundary Model", vendor := "vendor",
    context_length := 150000, price_input_per_million := 2,
    price_output_per_million := 2, price_median := 2 }

theorem sampleOk_eval : normalizeRecord sampleOkModel = NormalizeResult.ok sampleOkNorm := by
  simp [normalizeRecord, sampleOkModel, sampleOkNorm, median,
    List.insertionSort, List.orderedInsert]

/-! ## Claims -/

/-- C1: for every `NormalizedRecord` and every `ThresholdConfig` the classifier
returns exactly one `QuadrantLabel`, the Cartesian product of the two
independent axis tests, and ties at the thresholds resolve to the
non-exceeding side: context equal to `context_threshold` is "low" context
(high requires strict greater-than), and output price equal to
`price_threshold` is "high" price (low requires strict less-than). -/
theorem classifier_total_and_boundary (r : NormalizedRecord) (cfg : ThresholdConfig) :
    classify r cfg =
      combineAxes (priceAxisOf r.price_output_per_million cfg.price_threshold)
        (contextAxisOf r.context_length cfg.context_threshold) ∧
    quadrantPriceAxis (classify r cfg) =
      priceAxisOf r.price_output_per_million cfg.price_threshold ∧
    quadrantContextAxis (classify r cfg) =
      contextAxisOf r.context_length cfg.context_threshold ∧
    (r.context_length = cfg.context_threshold →
      quadrantContextAxis (classify r cfg) = ContextAxis.low) ∧
    (r.price_output_per_million = cfg.price_threshold →
      quadrantPriceAxis (classify r cfg) = PriceAxis.high) := by
  refine ⟨rfl, ?_, ?_, ?_, ?_⟩
  · cases hp : priceAxisOf r.price_output_per_million cfg.price_threshold <;>
      cases hc : contextAxisOf r.context_length cfg.context_threshold <;>
      simp [classify, hp, hc, combineAxes, quadrantPriceAxis]
  · cases hp : priceAxisOf r.price_output_per_million cfg.price_threshold <;>
      cases hc : contextAxisOf r.context_length cfg.context_threshold <;>
      simp [classify, hp, hc, combineAxes, quadrantContextAxis]
  · intro h
    have hc : contextAxisOf r.context_length cfg.context_threshold = ContextAxis.low := by
      simp [contextAxisOf, h]
    cases hp : priceAxisOf r.price_output_per_million cfg.price_threshold <;>
      simp [classify, hp, hc, combineAxes, quadrantContextAxis]
  · intro h
    have hp : priceAxisOf r.price_output_per_million cfg.price_threshold = PriceAxis.high := by
      simp [priceAxisOf, h]
    cases hc : contextAxisOf r.context_length cfg.context_threshold <;>
      simp [classify, hp, hc, combineAxes, quadrantPriceAxis]

/-- Witness for C1: a record sitting exactly on the default thresholds is
labelled "low" context and "high" price. -/
theorem classifier_total_and_boundary_witness :
    quadrantContextAxis (classify boundaryNorm defaultThresholds) = ContextAxis.low ∧
    quadrantPriceAxis (classify boundaryNorm defaultThresholds) = PriceAxis.high :=
  ⟨(classifier_total_and_boundary boundaryNorm defaultThresholds).2.2.2.1 rfl,
   (classifier_total_and_boundary boundaryNorm defaultThresholds).2.2.2.2 rfl⟩

/-- C2: for every valid `ModelRecord` the normalizer computes the per-million
prices as the exact product of the per-token price and 1,000,000, with no
rounding before the display boundary (the model is over exact rationals). -/
theorem normalizer_exact_million_conversion (m : ModelRecord) (n : NormalizedRecord)
    (h : normalizeRecord m = NormalizeResult.ok n) :
    (∀ p, m.price_input_per_token = some p → n.price_input_per_million = p * 1000000) ∧
    (∀ p, m.price_output_per_token = some p → n.price_output_per_million = p * 1000000) := by
  obtain ⟨c, pin, pout, hc, hcpos, hpin, hpout, h1, h2, ht, hid, hcl, hinm, houtm, hmed⟩ :=
    normalizeRecord_ok_elim h
  constructor
  · intro p hp
    rw [hpin] at hp
    cases Option.some.inj hp
    exact hinm
  · intro p hp
    rw [hpout] at hp
    cases Option.some.inj hp
    exact houtm

/-- Witness for C2 at the sample record. -/
theorem normalizer_exact_million_conversion_witness :
    normalizeRecord sampleOkModel = NormalizeResult.ok sampleOkNorm ∧
    sampleOkNorm.price_input_per_million = 0 * 1000000 ∧
    sampleOkNorm.price_output_per_million = 0 * 1000000 :=
  ⟨sampleOk_eval,
   (normalizer_exact_million_conversion _ _ sampleOk_eval).1 0 rfl,
   (normalizer_exact_million_conversion _ _ sampleOk_eval).2 0 rfl⟩

/-- C3: quadrant assignment is a deterministic pure function of
`(context_length, price_output_per_million, thresholds)`; records agreeing on
those inputs get the same label, and re-running the classifier on its own
already-classified output reproduces the label (idempotence). -/
theorem classifier_pure_and_idempotent :
    (∀ r r2 : NormalizedRecord, ∀ cfg : ThresholdConfig,
      r.context_length = r2.context_length →
      r.price_output_per_million = r2.price_output_per_million →
      classify r cfg = classify r2 cfg) ∧
    (∀ (r : NormalizedRecord) (cfg : ThresholdConfig),
      classify (tagQuadrant r cfg).1 cfg = (tagQuadrant r cfg).2) := by
  constructor
  · intro r r2 cfg h1 h2
    unfold classify
    rw [h1, h2]
  · intro r cfg
    rfl

/-- Witness for C3: two sample records agreeing on the classification inputs,
and idempotence at the sample record. -/
theorem classifier_pure_and_idempotent_witness :
    classify sampleOkNorm defaultThresholds = classify sampleOkNormB defaultThresholds ∧
    classify (tagQuadrant sampleOkNorm defaultThresholds).1 defaultThresholds =
      (tagQuadrant sampleOkNorm defaultThresholds).2 :=
  ⟨classifier_pure_and_idempotent.1 sampleOkNorm sampleOkNormB defaultThresholds rfl rfl,
   classifier_pure_and_idempotent.2 sampleOkNorm defaultThresholds⟩

/-- C8: for every normalized record (both per-million prices present by
construction), `price_median` equals the arithmetic mean of
`price_input_per_million` and `price_output_per_million`. -/
theorem price_median_is_mean_of_two (m : ModelRecord) (n : NormalizedRecord)
    (h : normalizeRecord m = NormalizeResult.ok n) :
    n.price_median = (n.price_input_per_million + n.price_output_per_million) / 2 := by
  obtain ⟨c, pin, pout, hc, hcpos, hpin, hpout, h1, h2, ht, hid, hcl, hinm, houtm, hmed⟩ :=
    normalizeRecord_ok_elim h
  rw [hmed, hinm, houtm, median_pair]

/-- Witness for C8 at the sample record. -/
theorem price_median_is_mean_of_two_witness :
    normalizeRecord sampleOkModel = NormalizeResult.ok sampleOkNorm ∧
    sampleOkNorm.price_median =
      (sampleOkNorm.price_input_per_million + sampleOkNorm.price_output_per_million) / 2 :=
  ⟨sampleOk_eval, price_median_is_mean_of_two _ _ sampleOk_eval⟩

/-- A catalog entry with sound pricing and context but whose capability list
lacks tool invocation. -/
def noToolsModel : ModelRecord :=
  { id := "vendor/no-tools-model", display_name := "No Tools Model", vendor := "vendor",
    context_length := some 200000, price_input_per_token := some 0,
    price_output_per_token := some 0, price_cache_read_per_token := none,
    supported_parameters := ["temperature", "top_p"] }

/-- A catalog entry with tool support but `context_length = 0`. -/
def zeroContextModel : ModelRecord :=
  { id := "vendor/zero-context-model", display_name := "Zero Context Model",
    vendor := "vendor",
    context_length := some 0, price_input_per_token := some 0,
    price_output_per_token := some 0, price_cache_read_per_token := none,
    supported_parameters := ["tools"] }

/-- The malformed-record conditions of §4.2: `context_length` missing or
non-positive, or a pricing field missing or negative. -/
def invalidFields (m : ModelRecord) : Prop :=
  m.context_length = none ∨
  (∃ c, m.context_length = some c ∧ c ≤ 0) ∨
  m.price_input_per_token = none ∨
  m.price_output_per_token = none ∨
  (∃ p, m.price_input_per_token = some p ∧ p < 0) ∨
  (∃ p, m.price_output_per_token = some p ∧ p < 0)

theorem normalizeRecord_invalid_of_bad {m : ModelRecord}
    (ht : "tools" ∈ m.supported_parameters) (hbad : invalidFields m) :
    ∃ e, normalizeRecord m = NormalizeResult.invalid e := by
  cases hc : m.context_length with
  | none =>
    exact ⟨ValidationError.missingContext, by simp [normalizeRecord, ht, hc]⟩
  | some c =>
    by_cases hcpos : c ≤ 0
    · exact ⟨ValidationError.nonPositiveContext,
        by simp [normalizeRecord, ht, hc, hcpos]⟩
    · cases hin : m.price_input_per_token with
      | none =>
        exact ⟨ValidationError.missingPrice,
          by simp [normalizeRecord, ht, hc, hcpos, hin]⟩
      | some pin =>
        cases hout : m.price_output_per_token with
        | none =>
          exact ⟨ValidationError.missingPrice,
            by simp [normalizeRecord, ht, hc, hcpos, hin, hout]⟩
        | some pout =>
          by_cases hneg : pin < 0 ∨ pout < 0
          · exact ⟨ValidationError.negativePrice,
              by simp [normalizeRecord, ht, hc, hcpos, hin, hout, hneg]⟩
          · exfalso
            push_neg at hneg
            rcases hbad with h | ⟨c2, hc2, hle⟩ | h | h | ⟨p, hp, hplt⟩ | ⟨p, hp, hplt⟩
            · simp [hc] at h
            · rw [hc] at hc2
              cases Option.some.inj hc2
              exact hcpos hle
            · simp [hin] at h
            · simp [hout] at h
            · rw [hin] at hp
              cases Option.some.inj hp
              exact absurd hplt (not_lt.mpr hneg.1)
            · rw [hout] at hp
              cases Option.some.inj hp
              exact absurd hplt (not_lt.mpr hneg.2)

/-- C4: a fetched record whose `supported_parameters` list does not contain
`"tools"` is rejected by the normalizer itself (regardless of its pricing or
context values) and never appears in the normalized output set: every member
of the normalized set comes from a source record whose capability list does
contain `"tools"`. -/
theorem normalizer_filters_records_without_tools :
    (∀ m : ModelRecord, "tools" ∉ m.supported_parameters →
      normalizeRecord m = NormalizeResult.filteredNoTools) ∧
    (∀ (rs : List ModelRecord) (n : NormalizedRecord),
      n ∈ (normalizeAll rs).normalized →
      ∃ m, m ∈ rs ∧ "tools" ∈ m.supported_parameters ∧
        normalizeRecord m = NormalizeResult.ok n) := by
  constructor
  · exact fun m h => normalizeRecord_no_tools h
  · intro rs n h
    obtain ⟨m, hm, hok⟩ := normalizeAll_mem_source rs n h
    obtain ⟨c, pin, pout, _, _, _, _, _, _, ht, _, _, _, _, _⟩ :=
      normalizeRecord_ok_elim hok
    exact ⟨m, hm, ht, hok⟩

/-- Witness for C4: the tool-less sample record is filtered, and the only
member of a one-record normalized set comes from a tool-calling source. -/
theorem normalizer_filters_records_without_tools_witness :
    normalizeRecord noToolsModel = NormalizeResult.filteredNoTools ∧
    ∃ m, m ∈ [sampleOkModel] ∧ "tools" ∈ m.supported_parameters ∧
      normalizeRecord m = NormalizeResult.ok sampleOkNorm :=
  ⟨normalizer_filters_records_without_tools.1 noToolsModel (by simp [noToolsModel]),
   normalizer_filters_records_without_tools.2 [sampleOkModel] sampleOkNorm
     (by simp [normalizeAll, sampleOk_eval])⟩

/-- C5: a tool-calling record whose `context_length` is missing or
non-positive or whose pricing is missing or negative fails with a
`ValidationError` for that record only: it is excluded from the normalized
set, recorded as a validation skip, and the run continues over the remaining
records. -/
theorem normalizer_isolates_invalid_record (m : ModelRecord)
    (l1 l2 : List ModelRecord)
    (ht : "tools" ∈ m.supported_parameters) (hbad : invalidFields m) :
    ∃ e, normalizeRecord m = NormalizeResult.invalid e ∧
      (normalizeAll (l1 ++ m :: l2)).normalized =
        (normalizeAll (l1 ++ l2)).normalized ∧
      (m.id, e) ∈ (normalizeAll (l1 ++ m :: l2)).skipped := by
  obtain ⟨e, he⟩ := normalizeRecord_invalid_of_bad ht hbad
  exact ⟨e, he, (normalizeAll_invalid_skip he l1 l2).1,
    (normalizeAll_invalid_skip he l1 l2).2⟩

/-- Witness for C5: the zero-context record is skipped while the surrounding
run continues. -/
theorem normalizer_isolates_invalid_record_witness :
    "tools" ∈ zeroContextModel.supported_parameters ∧
    invalidFields zeroContextModel ∧
    ∃ e, normalizeRecord zeroContextModel = NormalizeResult.invalid e ∧
      (normalizeAll ([sampleOkModel] ++ zeroContextModel :: [])).normalized =
        (normalizeAll ([sampleOkModel] ++ [])).normalized ∧
      (zeroContextModel.id, e) ∈
        (normalizeAll ([sampleOkModel] ++ zeroContextModel :: [])).skipped :=
  ⟨by simp [zeroContextModel],
   Or.inr (Or.inl ⟨0, rfl, le_refl 0⟩),
   normalizer_isolates_invalid_record zeroContextModel [sampleOkModel] []
     (by simp [zeroContextModel]) (Or.inr (Or.inl ⟨0, rfl, le_refl 0⟩))⟩

/-- A raw configuration whose context threshold failed numeric parsing. -/
def nonNumericConfig : RawConfig :=
  { context_threshold := none, price_threshold := some 2 }

/-- The raw form of the documented default configuration. -/
def defaultRawConfig : RawConfig :=
  { context_threshold := some 150000, price_threshold := some 2 }

/-- C6: error propagation is two-tier — every `FetchError` aborts the whole
run with no partial result; every `ConfigError` is fatal and independent of
the fetched records (raised before classification); a `ValidationError` on
one record never discards the remaining records: the classified output over
`l1 ++ bad :: l2` is the classified output over `l1 ++ l2`, with the bad
record recorded as a skip. -/
theorem error_propagation_two_tier :
    (∀ (e : FetchError) (cfg : RawConfig),
      runPipeline (Except.error e) cfg = Except.error (RunError.fetch e)) ∧
    (∀ (rs : List ModelRecord) (cfg : RawConfig) (e : ConfigError),
      parseConfig cfg = Except.error e →
      runPipeline (Except.ok rs) cfg = Except.error (RunError.config e)) ∧
    (∀ (cfg : RawConfig) (tc : ThresholdConfig), parseConfig cfg = Except.ok tc →
      ∀ (l1 l2 : List ModelRecord) (m : ModelRecord) (e : ValidationError),
        normalizeRecord m = NormalizeResult.invalid e →
        runPipeline (Except.ok (l1 ++ m :: l2)) cfg =
          Except.ok
            { fetched_count := (l1 ++ m :: l2).length
              classified := ((normalizeAll (l1 ++ l2)).normalized).map
                (fun r => tagQuadrant r tc)
              skipped := (normalizeAll (l1 ++ m :: l2)).skipped } ∧
        (m.id, e) ∈ (normalizeAll (l1 ++ m :: l2)).skipped) := by
  refine ⟨fun e cfg => rfl, ?_, ?_⟩
  · intro rs cfg e h
    simp [runPipeline, h]
  · intro cfg tc htc l1 l2 m e he
    have hn := normalizeAll_invalid_skip he l1 l2
    refine ⟨?_, hn.2⟩
    simp [runPipeline, htc, hn.1]

/-- Witness for C6: a network failure aborts the run; a non-numeric threshold
aborts the run; a zero-context record is skipped in the middle of a run under
the default configuration without discarding its neighbour. -/
theorem error_propagation_two_tier_witness :
    runPipeline (Except.error FetchError.network) defaultRawConfig =
      Except.error (RunError.fetch FetchError.network) ∧
    runPipeline (Except.ok [sampleOkModel]) nonNumericConfig =
      Except.error (RunError.config ConfigError.nonNumeric) ∧
    runPipeline (Except.ok ([sampleOkModel] ++ zeroContextModel :: []))
        defaultRawConfig =
      Except.ok
        { fetched_count := ([sampleOkModel] ++ zeroContextModel :: []).length
          classified := ((normalizeAll ([sampleOkModel] ++ [])).normalized).map
            (fun r => tagQuadrant r defaultThresholds)
          skipped := (normalizeAll ([sampleOkModel] ++ zeroContextModel :: [])).skipped } ∧
    (zeroContextModel.id, ValidationError.nonPositiveContext) ∈
      (normalizeAll ([sampleOkModel] ++ zeroContextModel :: [])).skipped :=
  ⟨error_propagation_two_tier.1 FetchError.network defaultRawConfig,
   error_propagation_two_tier.2.1 [sampleOkModel] nonNumericConfig
     ConfigError.nonNumeric rfl,
   (error_propagation_two_tier.2.2 defaultRawConfig defaultThresholds rfl
     [sampleOkModel] [] zeroContextModel ValidationError.nonPositiveContext
     rfl).1,
   (error_propagation_two_tier.2.2 defaultRawConfig defaultThresholds rfl
     [sampleOkModel] [] zeroContextModel ValidationError.nonPositiveContext
     rfl).2⟩

/-- The documented outlier record (Grok 4 fast): a claimed 2,000,000-token
context window at $0.0000003/$0.0000005 per input/output token. -/
def grokRecord : ModelRecord :=
  { id := "x-ai/grok-4-fast", display_name := "Grok 4 Fast", vendor := "x-ai",
    context_length := some 2000000,
    price_input_per_token := some (3 / 10000000),
    price_output_per_token := some (5 / 10000000),
    price_cache_read_per_token := none,
    supported_parameters := ["tools"] }

/-- The expected normalized form of `grokRecord`. -/
def grokNormalized : NormalizedRecord :=
  { id := "x-ai/grok-4-fast", display_name := "Grok 4 Fast", vendor := "x-ai",
    context_length := 2000000, price_input_per_million := 3/10,
    price_output_per_million := 1/2, price_median := 2/5 }

/-- C7: the documented outlier — `{context_length: 2000000,
price_input_per_token: 0.0000003, price_output_per_token: 0.0000005}` —
normalizes to $0.30/$0.50 per million tokens under the default thresholds and
is classified low-cost/high-context. -/
theorem grok_end_to_end :
    ∃ n, normalizeRecord grokRecord = NormalizeResult.ok n ∧
      n.price_input_per_million = 3/10 ∧ n.price_output_per_million = 1/2 ∧
      classify n defaultThresholds = QuadrantLabel.lowCostHighContext := by
  refine ⟨grokNormalized, ?_, by norm_num [grokNormalized], by norm_num [grokNormalized], ?_⟩
  · norm_num [normalizeRecord, grokRecord, grokNormalized, median,
      List.insertionSort, List.orderedInsert]
  · norm_num [classify, grokNormalized, defaultThresholds, priceAxisOf,
      contextAxisOf, combineAxes]

/-- The sample catalog record embedded in the repository's data notes:
`moonshotai/kimi-k2-thinking`, context 262,144 tokens, $0.0000006 per prompt
token, $0.0000025 per completion token, $0.00000015 per cached input token,
with its full `supported_parameters` list. -/
def kimiModel : ModelRecord :=
  { id := "moonshotai/kimi-k2-thinking",
    display_name := "MoonshotAI: Kimi K2 Thinking", vendor := "moonshotai",
    context_length := some 262144,
    price_input_per_token := some (6 / 10000000),
    price_output_per_token := some (25 / 10000000),
    price_cache_read_per_token := some (15 / 100000000),
    supported_parameters := ["frequency_penalty", "include_reasoning",
      "max_tokens", "presence_penalty", "reasoning", "response_format",
      "stop", "structured_outputs", "temperature", "tool_choice", "tools",
      "top_p"] }

/-- The expected normalized form of `kimiModel`. -/
def kimiNormalized : NormalizedRecord :=
  { id := "moonshotai/kimi-k2-thinking",
    display_name := "MoonshotAI: Kimi K2 Thinking", vendor := "moonshotai",
    context_length := 262144, price_input_per_million := 3/5,
    price_output_per_million := 5/2, price_median := 31/20 }

/-- C10: the embedded sample record passes the tools filter, its completion
price normalizes to $2.50 per million tokens, and under the default
thresholds it is classified high-cost/high-context (262,144 > 150,000 and
2.50 is not < 2). -/
theorem kimi_end_to_end :
    ∃ n, normalizeRecord kimiModel = NormalizeResult.ok n ∧
      n.price_output_per_million = 5/2 ∧
      classify n defaultThresholds = QuadrantLabel.highCostHighContext := by
  refine ⟨kimiNormalized, ?_, by norm_num [kimiNormalized], ?_⟩
  · norm_num [normalizeRecord, kimiModel, kimiNormalized, median,
      List.insertionSort, List.orderedInsert]
  · norm_num [classify, kimiNormalized, defaultThresholds, priceAxisOf,
      contextAxisOf, combineAxes]

/-- C9: every group of the reporter's tabular listing is sorted by
`price_median` ascending and contains exactly the records tagged with that
group's quadrant. -/
theorem reportTable_groups_and_sorts
    (rs : List (NormalizedRecord × QuadrantLabel)) (q : QuadrantLabel)
    (g : List NormalizedRecord) (h : (q, g) ∈ reportTable rs) :
    List.Sorted medLE g ∧
    List.Perm g ((rs.filter (fun p => p.2 = q)).map Prod.fst) ∧
    ∀ r, r ∈ g → (r, q) ∈ rs := by
  obtain ⟨q2, hq2, heq⟩ := List.mem_map.mp h
  injection heq with hq hg
  subst hq
  refine ⟨?_, ?_, ?_⟩
  · rw [← hg]
    exact List.sorted_insertionSort medLE _
  · rw [← hg]
    exact List.perm_insertionSort medLE _
  · intro r hr
    rw [← hg, List.mem_insertionSort] at hr
    obtain ⟨p, hpf, hpr⟩ := List.mem_map.mp hr
    obtain ⟨hpmem, hpq⟩ := List.mem_filter.mp hpf
    have hq3 : p.2 = q2 := of_decide_eq_true hpq
    have hpeq : p = (r, q2) := Prod.ext hpr hq3
    rw [← hpeq]
    exact hpmem

/-- Witness for C9 at a one-record report. -/
theorem reportTable_groups_and_sorts_witness :
    (QuadrantLabel.lowCostLowContext, [sampleOkNorm]) ∈
      reportTable [(sampleOkNorm, QuadrantLabel.lowCostLowContext)] ∧
    List.Sorted medLE [sampleOkNorm] ∧
    List.Perm [sampleOkNorm]
      (([(sampleOkNorm, QuadrantLabel.lowCostLowContext)].filter
        (fun p => p.2 = QuadrantLabel.lowCostLowContext)).map Prod.fst) ∧
    ∀ r, r ∈ [sampleOkNorm] →
      (r, QuadrantLabel.lowCostLowContext) ∈
        [(sampleOkNorm, QuadrantLabel.lowCostLowContext)] := by
  have h : (QuadrantLabel.lowCostLowContext, [sampleOkNorm]) ∈
      reportTable [(sampleOkNorm, QuadrantLabel.lowCostLowContext)] := by
    simp [reportTable, quadrantOrder, List.insertionSort, List.orderedInsert]
  exact ⟨h, (reportTable_groups_and_sorts _ _ _ h).1,
    (reportTable_groups_and_sorts _ _ _ h).2.1,
    (reportTable_groups_and_sorts _ _ _ h).2.2⟩
